import Mathlib

/-
  Verification of the profile-reconciliation flow of the `sso` command
  (pkg/commands/sso/root.go) and of the guard checks at the top of several
  command `Exec` methods (logging s3 list, vcl condition list, service
  describe, tls custom activation describe).

  The Go `config.Profiles` map (map[string]*config.Profile) is embedded as an
  association list from profile name to profile record; Go map key uniqueness
  becomes an explicit `Nodup` hypothesis where a theorem needs it.  Unix
  timestamps obtained from time.Now().Unix() are passed in as an explicit
  `now : Int` parameter.  The success/failure of writing the config file to
  disk is an explicit `writeOk : Bool` parameter, and the on-disk state is
  tracked in a `World` record so that "the config file was (not) written" is
  expressible.
-/

namespace FastlyCLI

/-- A profile record, translated from config.Profile (the struct whose fields
are assigned in createNewProfile / editProfile in pkg/commands/sso/root.go). -/
structure Profile where
  AccessToken : String
  AccessTokenCreated : Int
  AccessTokenTTL : Int
  Default : Bool
  Email : String
  RefreshToken : String
  RefreshTokenCreated : Int
  RefreshTokenTTL : Int
  Token : String
deriving DecidableEq

/-- config.Profiles, a map from profile name to profile record, embedded as an
association list. -/
abbrev Profiles := List (String × Profile)

/-- The JWT portion of an authorization result (fields read in root.go:
AccessToken, ExpiresIn, RefreshToken, RefreshExpiresIn). -/
structure JWTToken where
  AccessToken : String
  ExpiresIn : Int
  RefreshToken : String
  RefreshExpiresIn : Int
deriving DecidableEq

/-- auth.AuthorizationResult as consumed by root.go.  `Err` is `some msg`
when the Go error is non-nil. -/
structure AuthorizationResult where
  Err : Option String
  SessionToken : String
  Email : String
  Jwt : JWTToken
deriving DecidableEq

/-- The error values the sso flow can produce, mirroring the fmt.Errorf /
fsterr.RemediationError wrapping structure in root.go. -/
inductive CLIError where
  /-- editProfile: failed to update the named profile with new token data. -/
  | failedToUpdateProfileTokenData (profileName : String)
  /-- processProfiles wrapping of a processUpdateProfile error. -/
  | failedToUpdateProfile (inner : CLIError)
  /-- processProfiles: the config file write failed. -/
  | failedToUpdateConfigFile
  /-- Exec wrapping of a processProfiles error. -/
  | failedToProcessProfileData (inner : CLIError)
  /-- Exec: the authorization callback failed; the flag records whether the
  failure was an empty session token (ar.Err was nil). -/
  | failedToAuthorize (noSessionToken : Bool)
  /-- fsterr.RemediationError wrapping an inner error. -/
  | remediationError (inner : CLIError) (remediation : String)
deriving DecidableEq

namespace auth

/-- Modelled from the spec: pkg/auth (not included in the source tree) exports
a remediation message attached to authorization failures ("any mid-flow
HTTP/browser error is wrapped with a user-facing remediation message"). -/
def Remediation : String := "sso authorization remediation"

end auth

namespace profile

/-- Modelled from the spec: profile.DefaultName, the literal name used when no
profile exists; the spec's no-profile flow creates "a new profile named
\x22default\x22". -/
def DefaultName : String := "default"

/-- Modelled from the spec: profile.Default returns the name of the profile
whose default flag is set (the spec invariant allows at most one), or the
empty string when no profile is the default. -/
def Default (ps : Profiles) : String :=
  match ps.find? (fun q => q.2.Default) with
  | some q => q.1
  | none => ""

/-- Modelled from the spec: profile.Get returns the profile stored under the
given name, if any. -/
def Get (name : String) (ps : Profiles) : Option Profile :=
  (ps.find? (fun q => decide (q.1 = name))).map Prod.snd

/-- Modelled from the spec: profile.SetADefault picks one of the existing
profiles (none of which is the default), sets its default flag, and returns
its name together with the updated mapping (root.go line 159 assigns both). -/
def SetADefault (ps : Profiles) : String × Profiles :=
  match ps with
  | [] => ("", [])
  | q :: t => (q.1, (q.1, { q.2 with Default := true }) :: t)

/-- Modelled from the spec: profile.SetDefault marks the named profile as the
default "for its side effect of resetting all other profiles to have their
Default field set to false" (caller comment in root.go); returns false when
the named profile does not exist. -/
def SetDefault (name : String) (ps : Profiles) : Profiles × Bool :=
  if ps.any (fun q => decide (q.1 = name)) then
    (ps.map (fun q => (q.1, { q.2 with Default := decide (q.1 = name) })), true)
  else (ps, false)

/-- Modelled from the spec: profile.Edit applies an update function to the
profile stored under the given name; returns false when the named profile
does not exist (editProfile in root.go turns that into an error). -/
def Edit (name : String) (ps : Profiles) (fn : Profile → Profile) : Profiles × Bool :=
  if ps.any (fun q => decide (q.1 = name)) then
    (ps.map (fun q => if q.1 = name then (q.1, fn q.2) else q), true)
  else (ps, false)

end profile

/-- Go map assignment `p[profileName] = v`: replace the entry if the key is
present, otherwise add it. -/
def mapSet (ps : Profiles) (name : String) (v : Profile) : Profiles :=
  if ps.any (fun q => decide (q.1 = name)) then
    ps.map (fun q => if q.1 = name then (name, v) else q)
  else ps ++ [(name, v)]

/-- The fields of sso.RootCommand read by the reconciliation flow, plus the
two global inputs it consults (the global --profile flag and the manifest
profile field). -/
structure RootCommand where
  profile : String
  InvokedFromProfileCreate : Bool
  ProfileCreateName : String
  ProfileDefault : Bool
  InvokedFromProfileUpdate : Bool
  ProfileUpdateName : String
  FlagsProfile : String
  ManifestProfile : String
deriving DecidableEq

/-- ProfileFlow enumerates which profile flow to take (root.go). -/
inductive ProfileFlow where
  | ProfileNone
  | ProfileCreate
  | ProfileUpdate
deriving DecidableEq

/-- identifyProfileAndFlow (root.go lines 146-178).  Because the Go method
reassigns c.Globals.Config.Profiles when profile.SetADefault runs, the
(possibly updated) profile mapping is returned as the third component. -/
def identifyProfileAndFlow (c : RootCommand) (ps0 : Profiles) :
    String × ProfileFlow × Profiles :=
  let profileOverride :=
    if c.FlagsProfile ≠ "" then c.FlagsProfile
    else if c.ManifestProfile ≠ "" then c.ManifestProfile
    else ""
  let currentDefaultProfile := profile.Default ps0
  let sad :=
    if currentDefaultProfile = "" ∧ 0 < ps0.length then profile.SetADefault ps0
    else ("", ps0)
  let newDefaultProfile := sad.1
  let ps := sad.2
  if profileOverride ≠ "" then (profileOverride, ProfileFlow.ProfileUpdate, ps)
  else if c.profile ≠ "" then (c.profile, ProfileFlow.ProfileUpdate, ps)
  else if c.InvokedFromProfileCreate ∧ c.ProfileCreateName ≠ "" then
    (c.ProfileCreateName, ProfileFlow.ProfileCreate, ps)
  else if c.InvokedFromProfileUpdate ∧ c.ProfileUpdateName ≠ "" then
    (c.ProfileUpdateName, ProfileFlow.ProfileUpdate, ps)
  else if currentDefaultProfile ≠ "" then
    (currentDefaultProfile, ProfileFlow.ProfileUpdate, ps)
  else if newDefaultProfile ≠ "" then
    (newDefaultProfile, ProfileFlow.ProfileUpdate, ps)
  else (profile.DefaultName, ProfileFlow.ProfileCreate, ps)

/-- The profile record built by createNewProfile (the config.Profile struct
literal at root.go lines 249-259). -/
def newProfileRecord (ar : AuthorizationResult) (now : Int) (makeDefault : Bool) :
    Profile :=
  { AccessToken := ar.Jwt.AccessToken
    AccessTokenCreated := now
    AccessTokenTTL := ar.Jwt.ExpiresIn
    Default := makeDefault
    Email := ar.Email
    RefreshToken := ar.Jwt.RefreshToken
    RefreshTokenCreated := now
    RefreshTokenTTL := ar.Jwt.RefreshExpiresIn
    Token := ar.SessionToken }

/-- createNewProfile (root.go lines 244-261): store a freshly built profile
record under the given name. -/
def createNewProfile (profileName : String) (makeDefault : Bool) (ps : Profiles)
    (ar : AuthorizationResult) (now : Int) : Profiles :=
  mapSet ps profileName (newProfileRecord ar now makeDefault)

/-- The update closure passed to profile.Edit by editProfile
(root.go lines 266-277). -/
def editProfileFn (makeDefault : Bool) (ar : AuthorizationResult) (now : Int)
    (p : Profile) : Profile :=
  { p with
    Default := makeDefault
    AccessToken := ar.Jwt.AccessToken
    AccessTokenCreated := now
    AccessTokenTTL := ar.Jwt.ExpiresIn
    Email := ar.Email
    RefreshToken := ar.Jwt.RefreshToken
    RefreshTokenCreated := now
    RefreshTokenTTL := ar.Jwt.RefreshExpiresIn
    Token := ar.SessionToken }

/-- editProfile (root.go lines 265-285). -/
def editProfile (profileName : String) (makeDefault : Bool) (ps : Profiles)
    (ar : AuthorizationResult) (now : Int) : Profiles × Option CLIError :=
  let er := profile.Edit profileName ps (editProfileFn makeDefault ar now)
  if er.2 then (er.1, none)
  else
    (er.1, some (CLIError.remediationError
      (CLIError.failedToUpdateProfileTokenData profileName)
      "Run fastly sso to retry."))

/-- processCreateProfile (root.go lines 206-222). -/
def processCreateProfile (c : RootCommand) (ar : AuthorizationResult)
    (profileName : String) (ps : Profiles) (now : Int) : Profiles :=
  let isDefault := if c.InvokedFromProfileCreate then c.ProfileDefault else true
  let ps1 := createNewProfile profileName isDefault ps ar now
  if c.ProfileDefault then
    let sr := profile.SetDefault c.ProfileCreateName ps1
    if sr.2 then sr.1 else ps1
  else ps1

/-- processUpdateProfile (root.go lines 225-240).  On error the Go method
returns without reassigning c.Globals.Config.Profiles, so the original
mapping is returned alongside the error. -/
def processUpdateProfile (c : RootCommand) (ar : AuthorizationResult)
    (profileName : String) (ps : Profiles) (now : Int) :
    Profiles × Option CLIError :=
  let isDefault0 :=
    match profile.Get profileName ps with
    | some p => p.Default
    | none => false
  let isDefault := if c.InvokedFromProfileUpdate then c.ProfileDefault else isDefault0
  let er := editProfile profileName isDefault ps ar now
  match er.2 with
  | some e => (ps, some e)
  | none => (er.1, none)

/-- The state touched by processProfiles: the in-memory profile mapping and
the last profile mapping serialized to the config file (none when the file
was never written). -/
structure World where
  profiles : Profiles
  disk : Option Profiles
deriving DecidableEq

/-- processProfiles (root.go lines 186-203): identify the profile and flow,
run the create or update branch, then write the config file.  `writeOk`
models whether the config file write succeeds. -/
def processProfiles (c : RootCommand) (ar : AuthorizationResult) (now : Int)
    (writeOk : Bool) (w : World) : World × Option CLIError :=
  let r := identifyProfileAndFlow c w.profiles
  let profileName := r.1
  let flow := r.2.1
  let w1 : World := { w with profiles := r.2.2 }
  let step : World × Option CLIError :=
    match flow with
    | ProfileFlow.ProfileCreate =>
        ({ w1 with profiles := processCreateProfile c ar profileName w1.profiles now },
         none)
    | ProfileFlow.ProfileUpdate =>
        let ue := processUpdateProfile c ar profileName w1.profiles now
        match ue.2 with
        | some e => (w1, some (CLIError.failedToUpdateProfile e))
        | none => ({ w1 with profiles := ue.1 }, none)
    | ProfileFlow.ProfileNone => (w1, none)
  match step.2 with
  | some e => (step.1, some e)
  | none =>
      if writeOk then ({ step.1 with disk := some step.1.profiles }, none)
      else (step.1, some CLIError.failedToUpdateConfigFile)

/-- Exec from the point the authorization result is received (root.go lines
102-125): reject a failed callback or empty session token with a remediation
error before touching any profile, otherwise run processProfiles and wrap its
error. -/
def execAfterAuth (c : RootCommand) (ar : AuthorizationResult) (now : Int)
    (writeOk : Bool) (w : World) : World × Option CLIError :=
  if ar.Err.isSome ∨ ar.SessionToken = "" then
    (w, some (CLIError.remediationError
      (CLIError.failedToAuthorize ar.Err.isNone) auth.Remediation))
  else
    let pr := processProfiles c ar now writeOk w
    match pr.2 with
    | some e => (pr.1, some (CLIError.failedToProcessProfileData e))
    | none => (pr.1, none)

/-- The number of profiles whose default flag is set. -/
def countDefaults (ps : Profiles) : Nat :=
  ps.countP (fun q => q.2.Default)

/-- The profile mapping after identifyProfileAndFlow's SetADefault step. -/
def adjustedProfiles (ps : Profiles) : Profiles :=
  (if profile.Default ps = "" ∧ 0 < ps.length then profile.SetADefault ps else ("", ps)).2

/-
  Command Exec guard checks.  Each Exec method is embedded as a function of
  the flag state and of the outcomes of its external collaborators (the
  service-details helper and the API client, per the spec these are "external
  collaborators with a simple contract").  The side effects the claims care
  about — whether the service-details helper and the API client were invoked
  at all, and in which order — are recorded as an event trace.
-/

/-- Errors surfaced by the embedded Exec methods.  `external` stands for an
error value returned by a collaborator (service resolution or API client). -/
inductive CmdError where
  | InvalidVerboseJSONCombo
  | NoServiceID
  | external (msg : String)
deriving DecidableEq

/-- Observable calls an Exec method makes to its collaborators, in order. -/
inductive Event where
  /-- argparser.ServiceParams / ServiceDetails was invoked. -/
  | ServiceDetailsResolved
  /-- argparser.ServiceID was invoked. -/
  | ServiceIDResolved
  /-- The named API client method was invoked. -/
  | APICalled (endpoint : String)
deriving DecidableEq

/-- manifest.Source: where the service ID came from. -/
inductive ManifestSource where
  | SourceUndefined
  | SourceFile
  | SourceEnvVar
  | SourceFlag
deriving DecidableEq

namespace s3

/-- ListCommand.Exec for the s3 logging endpoint (src/unnamed/part_001): the
verbose/json combo guard, then service-details resolution, then ListS3s.
Output formatting (JSON/table/verbose dump) is out of scope per the spec. -/
def ListExec {α : Type} (verbose jsonEnabled : Bool)
    (serviceDetails : Except CmdError (String × Int))
    (listS3s : String → Int → Except CmdError α) :
    Option CmdError × List Event :=
  if verbose && jsonEnabled then (some CmdError.InvalidVerboseJSONCombo, [])
  else
    match serviceDetails with
    | Except.error e => (some e, [Event.ServiceDetailsResolved])
    | Except.ok sd =>
        match listS3s sd.1 sd.2 with
        | Except.error e =>
            (some e, [Event.ServiceDetailsResolved, Event.APICalled "ListS3s"])
        | Except.ok _ =>
            (none, [Event.ServiceDetailsResolved, Event.APICalled "ListS3s"])

end s3

namespace condition

/-- ListCommand.Exec for vcl conditions (pkg/commands/vcl/condition/list.go):
same shape as the s3 list command with ListConditions as the API call. -/
def ListExec {α : Type} (verbose jsonEnabled : Bool)
    (serviceDetails : Except CmdError (String × Int))
    (listConditions : String → Int → Except CmdError α) :
    Option CmdError × List Event :=
  if verbose && jsonEnabled then (some CmdError.InvalidVerboseJSONCombo, [])
  else
    match serviceDetails with
    | Except.error e => (some e, [Event.ServiceDetailsResolved])
    | Except.ok sd =>
        match listConditions sd.1 sd.2 with
        | Except.error e =>
            (some e, [Event.ServiceDetailsResolved, Event.APICalled "ListConditions"])
        | Except.ok _ =>
            (none, [Event.ServiceDetailsResolved, Event.APICalled "ListConditions"])

end condition

namespace service

/-- DescribeCommand.Exec for services (src/unnamed/part_002): the
verbose/json combo guard, then argparser.ServiceID resolution, then the
no-service-ID guard (source undefined and --service-name unset), then
GetServiceDetails. -/
def DescribeExec {α : Type} (verbose jsonEnabled wasSet : Bool)
    (serviceIDResolution : Except CmdError (String × ManifestSource))
    (getServiceDetails : String → Except CmdError α) :
    Option CmdError × List Event :=
  if verbose && jsonEnabled then (some CmdError.InvalidVerboseJSONCombo, [])
  else
    match serviceIDResolution with
    | Except.error e => (some e, [Event.ServiceIDResolved])
    | Except.ok sr =>
        if sr.2 = ManifestSource.SourceUndefined ∧ wasSet = false then
          (some CmdError.NoServiceID, [Event.ServiceIDResolved])
        else
          match getServiceDetails sr.1 with
          | Except.error e =>
              (some e, [Event.ServiceIDResolved, Event.APICalled "GetServiceDetails"])
          | Except.ok _ =>
              (none, [Event.ServiceIDResolved, Event.APICalled "GetServiceDetails"])

end service

namespace activation

/-- DescribeCommand.Exec for TLS activations
(pkg/commands/tls/custom/activation/describe.go): the verbose/json combo
guard, then GetTLSActivation on the id flag. -/
def DescribeExec {α : Type} (verbose jsonEnabled : Bool) (id : String)
    (getTLSActivation : String → Except CmdError α) :
    Option CmdError × List Event :=
  if verbose && jsonEnabled then (some CmdError.InvalidVerboseJSONCombo, [])
  else
    match getTLSActivation id with
    | Except.error e => (some e, [Event.APICalled "GetTLSActivation"])
    | Except.ok _ => (none, [Event.APICalled "GetTLSActivation"])

end activation

/-
  Concrete sample inputs used by counterexamples and witnesses.
-/

/-- A sample JWT. -/
def jwtSample : JWTToken :=
  { AccessToken := "at", ExpiresIn := 5, RefreshToken := "rt", RefreshExpiresIn := 9 }

/-- A successful authorization result. -/
def arGood : AuthorizationResult :=
  { Err := none, SessionToken := "tok", Email := "ab", Jwt := jwtSample }

/-- An authorization result with an empty session token and no error. -/
def arNoToken : AuthorizationResult :=
  { Err := none, SessionToken := "", Email := "ab", Jwt := jwtSample }

/-- A stored profile that is not the default. -/
def pfPlain : Profile :=
  { AccessToken := "old", AccessTokenCreated := 1, AccessTokenTTL := 2,
    Default := false, Email := "old", RefreshToken := "old",
    RefreshTokenCreated := 3, RefreshTokenTTL := 4, Token := "old" }

/-- A stored profile that is the default. -/
def pfTheDefault : Profile := { pfPlain with Default := true }

/-- A RootCommand with every input empty or false: a plain `fastly sso`
invocation with no flags, arguments or manifest profile. -/
def cmdBlank : RootCommand :=
  { profile := "", InvokedFromProfileCreate := false, ProfileCreateName := "",
    ProfileDefault := false, InvokedFromProfileUpdate := false,
    ProfileUpdateName := "", FlagsProfile := "", ManifestProfile := "" }

/-- `fastly sso` invoked with the global --profile flag naming "userx". -/
def cmdFlagOnly : RootCommand := { cmdBlank with FlagsProfile := "userx" }

/-- The state left by `profile update a --default`: the sso flow is invoked
from the profile update subcommand, asked to update profile "a" and to make
it the default. -/
def cmdUpdateADefault : RootCommand :=
  { cmdBlank with
    InvokedFromProfileUpdate := true
    ProfileUpdateName := "a"
    ProfileDefault := true }

/-- A world with a non-default profile "a" and the default profile "b". -/
def worldAB : World :=
  { profiles := [("a", pfPlain), ("b", pfTheDefault)], disk := none }


/-
  Supporting lemmas.
-/

theorem identify_of_flag (c : RootCommand) (ps : Profiles) (h : c.FlagsProfile ≠ "") :
    identifyProfileAndFlow c ps = (c.FlagsProfile, ProfileFlow.ProfileUpdate, adjustedProfiles ps) := by
  simp only [identifyProfileAndFlow, adjustedProfiles]
  simp [h]

theorem identify_of_manifest (c : RootCommand) (ps : Profiles)
    (h1 : c.FlagsProfile = "") (h : c.ManifestProfile ≠ "") :
    identifyProfileAndFlow c ps = (c.ManifestProfile, ProfileFlow.ProfileUpdate, adjustedProfiles ps) := by
  simp only [identifyProfileAndFlow, adjustedProfiles]
  simp [h1, h]

theorem identify_of_positional (c : RootCommand) (ps : Profiles)
    (h1 : c.FlagsProfile = "") (h2 : c.ManifestProfile = "") (h : c.profile ≠ "") :
    identifyProfileAndFlow c ps = (c.profile, ProfileFlow.ProfileUpdate, adjustedProfiles ps) := by
  simp only [identifyProfileAndFlow, adjustedProfiles]
  simp [h1, h2, h]

theorem identify_of_createName (c : RootCommand) (ps : Profiles)
    (h1 : c.FlagsProfile = "") (h2 : c.ManifestProfile = "") (h3 : c.profile = "")
    (h4 : c.InvokedFromProfileCreate = true) (h5 : c.ProfileCreateName ≠ "") :
    identifyProfileAndFlow c ps = (c.ProfileCreateName, ProfileFlow.ProfileCreate, adjustedProfiles ps) := by
  simp only [identifyProfileAndFlow, adjustedProfiles]
  simp [h1, h2, h3, h4, h5]

theorem identify_of_updateName (c : RootCommand) (ps : Profiles)
    (h1 : c.FlagsProfile = "") (h2 : c.ManifestProfile = "") (h3 : c.profile = "")
    (h4 : ¬(c.InvokedFromProfileCreate = true ∧ c.ProfileCreateName ≠ ""))
    (h5 : c.InvokedFromProfileUpdate = true) (h6 : c.ProfileUpdateName ≠ "") :
    identifyProfileAndFlow c ps = (c.ProfileUpdateName, ProfileFlow.ProfileUpdate, adjustedProfiles ps) := by
  simp only [identifyProfileAndFlow, adjustedProfiles]
  simp [h1, h2, h3, h4, h5, h6]

theorem identify_of_currentDefault (c : RootCommand) (ps : Profiles)
    (h1 : c.FlagsProfile = "") (h2 : c.ManifestProfile = "") (h3 : c.profile = "")
    (h4 : ¬(c.InvokedFromProfileCreate = true ∧ c.ProfileCreateName ≠ ""))
    (h5 : ¬(c.InvokedFromProfileUpdate = true ∧ c.ProfileUpdateName ≠ ""))
    (h6 : profile.Default ps ≠ "") :
    identifyProfileAndFlow c ps = (profile.Default ps, ProfileFlow.ProfileUpdate, ps) := by
  simp only [identifyProfileAndFlow]
  simp [h1, h2, h3, h4, h5, h6]

theorem identify_of_newDefault (c : RootCommand) (ps : Profiles)
    (h1 : c.FlagsProfile = "") (h2 : c.ManifestProfile = "") (h3 : c.profile = "")
    (h4 : ¬(c.InvokedFromProfileCreate = true ∧ c.ProfileCreateName ≠ ""))
    (h5 : ¬(c.InvokedFromProfileUpdate = true ∧ c.ProfileUpdateName ≠ ""))
    (h6 : profile.Default ps = "") (h7 : 0 < ps.length)
    (h8 : (profile.SetADefault ps).1 ≠ "") :
    identifyProfileAndFlow c ps = ((profile.SetADefault ps).1, ProfileFlow.ProfileUpdate, (profile.SetADefault ps).2) := by
  simp only [identifyProfileAndFlow]
  simp [h1, h2, h3, h4, h5, h6, h7, h8]

theorem identify_of_fallback (c : RootCommand) (ps : Profiles)
    (h1 : c.FlagsProfile = "") (h2 : c.ManifestProfile = "") (h3 : c.profile = "")
    (h4 : ¬(c.InvokedFromProfileCreate = true ∧ c.ProfileCreateName ≠ ""))
    (h5 : ¬(c.InvokedFromProfileUpdate = true ∧ c.ProfileUpdateName ≠ ""))
    (h6 : profile.Default ps = "")
    (h7 : ps = [] ∨ (profile.SetADefault ps).1 = "") :
    identifyProfileAndFlow c ps = (profile.DefaultName, ProfileFlow.ProfileCreate, adjustedProfiles ps) := by
  simp only [identifyProfileAndFlow, adjustedProfiles]
  rcases h7 with h7 | h7
  · subst h7; simp [h1, h2, h3, h4, h5, h6, profile.Default]
  · by_cases hlen : 0 < ps.length
    · simp [h1, h2, h3, h4, h5, h6, h7, hlen]
    · simp [h1, h2, h3, h4, h5, h6, hlen]

theorem countDefaults_keyMap (ps : Profiles) (name : String) (f : Profile → Profile) :
    countDefaults (ps.map (fun q => if q.1 = name then (q.1, f q.2) else q)) =
      ps.countP (fun q => if q.1 = name then (f q.2).Default else q.2.Default) := by
  unfold countDefaults
  rw [List.countP_map]
  apply List.countP_congr
  intro q _
  by_cases h : q.1 = name <;> simp [h, Function.comp]

theorem countDefaults_allMap (ps : Profiles) (g : String × Profile → Bool)
    (f : String × Profile → String × Profile)
    (hf : ∀ q, ((f q).2).Default = g q) :
    countDefaults (ps.map f) = ps.countP g := by
  unfold countDefaults
  rw [List.countP_map]
  apply List.countP_congr
  intro q _
  simp [Function.comp, hf q]

theorem countKey_le_one (ps : Profiles) (name : String)
    (hnd : (ps.map Prod.fst).Nodup) :
    ps.countP (fun q => decide (q.1 = name)) ≤ 1 := by
  induction ps with
  | nil => simp
  | cons a t ih =>
    rw [List.map_cons, List.nodup_cons] at hnd
    by_cases ha : a.1 = name
    · have ht : t.countP (fun q => decide (q.1 = name)) = 0 := by
        apply List.countP_eq_zero.mpr
        intro q hq
        simp only [decide_eq_true_eq]
        intro hk
        exact hnd.1 (ha ▸ hk ▸ List.mem_map_of_mem Prod.fst hq)
      simp [List.countP_cons, ha, ht]
    · simp only [List.countP_cons, ha, decide_False]
      simpa using ih hnd.2

theorem Get_eq_of_mem (ps : Profiles) (name : String) (q : String × Profile)
    (hnd : (ps.map Prod.fst).Nodup) (hq : q ∈ ps) (hk : q.1 = name) :
    profile.Get name ps = some q.2 := by
  induction ps with
  | nil => cases hq
  | cons a t ih =>
    rw [List.map_cons, List.nodup_cons] at hnd
    rcases List.mem_cons.mp hq with rfl | hq'
    · simp [profile.Get, List.find?, hk]
    · have ha : ¬(a.1 = name) := by
        intro h
        exact hnd.1 (h ▸ hk ▸ List.mem_map_of_mem Prod.fst hq')
      simpa [profile.Get, List.find?_cons, ha] using ih hnd.2 hq'

theorem countDefaults_zero_of_Default_empty (ps : Profiles)
    (hne : ∀ k ∈ ps.map Prod.fst, k ≠ "") (h : profile.Default ps = "") :
    countDefaults ps = 0 := by
  unfold profile.Default at h
  cases hfind : ps.find? (fun q => q.2.Default) with
  | none =>
    exact List.countP_eq_zero.mpr (List.find?_eq_none.mp hfind)
  | some q =>
    rw [hfind] at h
    exact absurd h
      (hne q.1 (List.mem_map_of_mem Prod.fst (List.mem_of_find?_eq_some hfind)))

theorem SetADefault_keys (ps : Profiles) :
    ((profile.SetADefault ps).2).map Prod.fst = ps.map Prod.fst := by
  cases ps <;> simp [profile.SetADefault]

theorem SetADefault_fst (q : String × Profile) (t : Profiles) :
    (profile.SetADefault (q :: t)).1 = q.1 := rfl

theorem countDefaults_SetADefault_le (ps : Profiles)
    (h : countDefaults ps = 0) :
    countDefaults (profile.SetADefault ps).2 ≤ 1 := by
  cases ps with
  | nil => simp [profile.SetADefault, countDefaults]
  | cons q t =>
    unfold countDefaults at h ⊢
    rw [List.countP_cons] at h
    by_cases hq : q.2.Default = true
    · rw [if_pos hq] at h; omega
    · rw [if_neg hq, Nat.add_zero] at h
      simp [profile.SetADefault, List.countP_cons, h]

theorem adjustedProfiles_keys (ps : Profiles) :
    (adjustedProfiles ps).map Prod.fst = ps.map Prod.fst := by
  unfold adjustedProfiles
  split
  · exact SetADefault_keys ps
  · rfl

theorem countDefaults_adjustedProfiles_le (ps : Profiles)
    (hne : ∀ k ∈ ps.map Prod.fst, k ≠ "") (h : countDefaults ps ≤ 1) :
    countDefaults (adjustedProfiles ps) ≤ 1 := by
  unfold adjustedProfiles
  split
  · rename_i hc
    exact countDefaults_SetADefault_le ps
      (countDefaults_zero_of_Default_empty ps hne hc.1)
  · exact h

theorem mapSet_keys_of_hasKey (ps : Profiles) (k : String) (v : Profile)
    (h : ps.any (fun q => decide (q.1 = k)) = true) :
    (mapSet ps k v).map Prod.fst = ps.map Prod.fst := by
  simp only [mapSet, h, if_true]
  rw [List.map_map]
  apply List.map_congr_left
  intro q _
  by_cases hk : q.1 = k <;> simp [hk, Function.comp]

theorem mapSet_keys_of_not_hasKey (ps : Profiles) (k : String) (v : Profile)
    (h : ps.any (fun q => decide (q.1 = k)) = false) :
    (mapSet ps k v).map Prod.fst = ps.map Prod.fst ++ [k] := by
  simp [mapSet, h]

theorem not_mem_keys_of_any_false (ps : Profiles) (k : String)
    (h : ps.any (fun q => decide (q.1 = k)) = false) :
    k ∉ ps.map Prod.fst := by
  intro hmem
  rcases List.mem_map.mp hmem with ⟨q, hq, hq1⟩
  rw [List.any_eq_false] at h
  exact h q hq (by simp [hq1])

theorem mapSet_nodup (ps : Profiles) (k : String) (v : Profile)
    (hnd : (ps.map Prod.fst).Nodup) :
    ((mapSet ps k v).map Prod.fst).Nodup := by
  cases hk : ps.any (fun q => decide (q.1 = k)) with
  | true => rw [mapSet_keys_of_hasKey ps k v hk]; exact hnd
  | false =>
    rw [mapSet_keys_of_not_hasKey ps k v hk]
    simp [List.nodup_append, hnd, not_mem_keys_of_any_false ps k hk]

theorem countDefaults_mapSet_of_hasKey (ps : Profiles) (k : String) (v : Profile)
    (h : ps.any (fun q => decide (q.1 = k)) = true) :
    countDefaults (mapSet ps k v) =
      ps.countP (fun q => if q.1 = k then v.Default else q.2.Default) := by
  simp only [mapSet, h, if_true]
  unfold countDefaults
  rw [List.countP_map]
  apply List.countP_congr
  intro q _
  by_cases hk : q.1 = k <;> simp [hk, Function.comp]

theorem countDefaults_mapSet_of_not_hasKey (ps : Profiles) (k : String) (v : Profile)
    (h : ps.any (fun q => decide (q.1 = k)) = false) :
    countDefaults (mapSet ps k v) =
      countDefaults ps + (if v.Default then 1 else 0) := by
  simp only [mapSet, h, Bool.false_eq_true, if_false]
  unfold countDefaults
  rw [List.countP_append]
  simp [List.countP_cons]

theorem countDefaults_mapSet_le (ps : Profiles) (k : String) (v : Profile)
    (hv : v.Default = false) :
    countDefaults (mapSet ps k v) ≤ countDefaults ps := by
  cases h : ps.any (fun q => decide (q.1 = k)) with
  | true =>
    rw [countDefaults_mapSet_of_hasKey ps k v h]
    apply List.countP_mono_left
    intro q _ hq
    by_cases hk : q.1 = k
    · rw [if_pos hk, hv] at hq; cases hq
    · rwa [if_neg hk] at hq
  | false =>
    rw [countDefaults_mapSet_of_not_hasKey ps k v h, hv]
    simp

theorem hasKey_mapSet_self (ps : Profiles) (k : String) (v : Profile) :
    (mapSet ps k v).any (fun q => decide (q.1 = k)) = true := by
  cases h : ps.any (fun q => decide (q.1 = k)) with
  | true =>
    simp only [mapSet, h, if_true]
    rw [List.any_eq_true] at h ⊢
    rcases h with ⟨q, hq, hk⟩
    have hk1 : q.1 = k := by simpa using hk
    exact ⟨(k, v), List.mem_map.mpr ⟨q, hq, by simp [hk1]⟩, by simp⟩
  | false =>
    simp only [mapSet, h, Bool.false_eq_true, if_false]
    rw [List.any_eq_true]
    exact ⟨(k, v), by simp, by simp⟩

theorem find?_keyMap_replace (ps : Profiles) (k : String) (v : Profile) :
    ((ps.map (fun q => if q.1 = k then (k, v) else q)).find?
        (fun q => decide (q.1 = k))) =
      if ps.any (fun q => decide (q.1 = k)) then some (k, v) else none := by
  induction ps with
  | nil => simp
  | cons a t ih =>
    by_cases ha : a.1 = k
    · simp [ha]
    · have hd : decide (a.1 = k) = false := decide_eq_false ha
      simp only [List.map_cons, if_neg ha, List.find?_cons, List.any_cons, hd,
        Bool.false_or]
      simp [ih]

theorem find?_none_of_any_false (ps : Profiles) (k : String)
    (h : ps.any (fun q => decide (q.1 = k)) = false) :
    ps.find? (fun q => decide (q.1 = k)) = none := by
  rw [List.find?_eq_none]
  rw [List.any_eq_false] at h
  exact h

theorem Get_mapSet_self (ps : Profiles) (k : String) (v : Profile) :
    profile.Get k (mapSet ps k v) = some v := by
  unfold profile.Get
  cases h : ps.any (fun q => decide (q.1 = k)) with
  | true =>
    simp only [mapSet, h, if_true]
    rw [find?_keyMap_replace ps k v, if_pos h]
    rfl
  | false =>
    simp only [mapSet, h, Bool.false_eq_true, if_false]
    rw [List.find?_append, find?_none_of_any_false ps k h]
    simp [List.find?]

theorem find?_keyMap_edit (ps : Profiles) (k : String) (fn : Profile → Profile) :
    ((ps.map (fun q => if q.1 = k then (q.1, fn q.2) else q)).find?
        (fun q => decide (q.1 = k))) =
      (ps.find? (fun q => decide (q.1 = k))).map (fun q => (q.1, fn q.2)) := by
  induction ps with
  | nil => simp
  | cons a t ih =>
    simp only [List.map_cons, List.find?_cons]
    by_cases ha : a.1 = k
    · simp [ha]
    · simp [ha, ih]

theorem find?_keyMap_edit_other (ps : Profiles) (k k2 : String)
    (fn : Profile → Profile) (hne : k2 ≠ k) :
    ((ps.map (fun q => if q.1 = k then (q.1, fn q.2) else q)).find?
        (fun q => decide (q.1 = k2))) =
      ps.find? (fun q => decide (q.1 = k2)) := by
  induction ps with
  | nil => simp
  | cons a t ih =>
    simp only [List.map_cons]
    by_cases ha : a.1 = k
    · rw [if_pos ha]
      have ha2 : ¬(a.1 = k2) := by rw [ha]; exact fun h => hne h.symm
      simp [List.find?_cons, ha2, ih]
    · rw [if_neg ha]
      by_cases hb : a.1 = k2 <;> simp [List.find?_cons, hb, ih]

theorem Edit_snd (k : String) (ps : Profiles) (fn : Profile → Profile) :
    (profile.Edit k ps fn).2 = ps.any (fun q => decide (q.1 = k)) := by
  unfold profile.Edit
  by_cases h : ps.any (fun q => decide (q.1 = k)) = true
  · simp [h]
  · rw [Bool.not_eq_true] at h
    simp [h]

theorem Edit_fst_of_any_false (k : String) (ps : Profiles) (fn : Profile → Profile)
    (h : ps.any (fun q => decide (q.1 = k)) = false) :
    (profile.Edit k ps fn).1 = ps := by
  simp [profile.Edit, h]

theorem Edit_fst_of_any_true (k : String) (ps : Profiles) (fn : Profile → Profile)
    (h : ps.any (fun q => decide (q.1 = k)) = true) :
    (profile.Edit k ps fn).1 =
      ps.map (fun q => if q.1 = k then (q.1, fn q.2) else q) := by
  simp [profile.Edit, h]

theorem Get_Edit_self (k : String) (ps : Profiles) (fn : Profile → Profile) :
    profile.Get k (profile.Edit k ps fn).1 = (profile.Get k ps).map fn := by
  cases h : ps.any (fun q => decide (q.1 = k)) with
  | true =>
    rw [Edit_fst_of_any_true k ps fn h]
    unfold profile.Get
    rw [find?_keyMap_edit ps k fn]
    cases ps.find? (fun q => decide (q.1 = k)) <;> simp
  | false =>
    rw [Edit_fst_of_any_false k ps fn h]
    unfold profile.Get
    rw [find?_none_of_any_false ps k h]
    simp

theorem Get_Edit_other (k k2 : String) (ps : Profiles) (fn : Profile → Profile)
    (hne : k2 ≠ k) :
    profile.Get k2 (profile.Edit k ps fn).1 = profile.Get k2 ps := by
  cases h : ps.any (fun q => decide (q.1 = k)) with
  | true =>
    rw [Edit_fst_of_any_true k ps fn h]
    unfold profile.Get
    rw [find?_keyMap_edit_other ps k k2 fn hne]
  | false =>
    rw [Edit_fst_of_any_false k ps fn h]

theorem any_true_of_Get_some (k : String) (ps : Profiles) (p : Profile)
    (h : profile.Get k ps = some p) :
    ps.any (fun q => decide (q.1 = k)) = true := by
  unfold profile.Get at h
  cases hf : ps.find? (fun q => decide (q.1 = k)) with
  | none => rw [hf] at h; cases h
  | some q =>
    rw [List.any_eq_true]
    have hpred : decide (q.1 = k) = true := by
      have := List.find?_some hf
      simpa using this
    exact ⟨q, List.mem_of_find?_eq_some hf, hpred⟩

theorem Edit_keys (k : String) (ps : Profiles) (fn : Profile → Profile) :
    ((profile.Edit k ps fn).1).map Prod.fst = ps.map Prod.fst := by
  cases h : ps.any (fun q => decide (q.1 = k)) with
  | true =>
    rw [Edit_fst_of_any_true k ps fn h, List.map_map]
    apply List.map_congr_left
    intro q _
    by_cases hk : q.1 = k <;> simp [hk, Function.comp]
  | false => rw [Edit_fst_of_any_false k ps fn h]

theorem countDefaults_Edit (k : String) (ps : Profiles) (fn : Profile → Profile) :
    countDefaults (profile.Edit k ps fn).1 =
      ps.countP (fun q => if q.1 = k then (fn q.2).Default else q.2.Default) := by
  cases h : ps.any (fun q => decide (q.1 = k)) with
  | true =>
    rw [Edit_fst_of_any_true k ps fn h]
    exact countDefaults_keyMap ps k fn
  | false =>
    rw [Edit_fst_of_any_false k ps fn h]
    unfold countDefaults
    apply List.countP_congr
    intro q hq
    have : ¬(q.1 = k) := by
      rw [List.any_eq_false] at h
      intro hk
      exact h q hq (by simp [hk])
    simp [this]

theorem identify_third (c : RootCommand) (ps : Profiles) :
    (identifyProfileAndFlow c ps).2.2 = adjustedProfiles ps := by
  simp only [identifyProfileAndFlow, adjustedProfiles]
  repeat' split
  all_goals rfl

theorem SetDefault_snd (name : String) (ps : Profiles) :
    (profile.SetDefault name ps).2 = ps.any (fun q => decide (q.1 = name)) := by
  unfold profile.SetDefault
  by_cases h : ps.any (fun q => decide (q.1 = name)) = true
  · simp [h]
  · rw [Bool.not_eq_true] at h
    simp [h]

theorem SetDefault_fst_of_any_true (name : String) (ps : Profiles)
    (h : ps.any (fun q => decide (q.1 = name)) = true) :
    (profile.SetDefault name ps).1 =
      ps.map (fun q => (q.1, { q.2 with Default := decide (q.1 = name) })) := by
  simp [profile.SetDefault, h]

theorem SetDefault_fst_of_any_false (name : String) (ps : Profiles)
    (h : ps.any (fun q => decide (q.1 = name)) = false) :
    (profile.SetDefault name ps).1 = ps := by
  simp [profile.SetDefault, h]

theorem countDefaults_SetDefault_of_any_true (name : String) (ps : Profiles)
    (h : ps.any (fun q => decide (q.1 = name)) = true) :
    countDefaults (profile.SetDefault name ps).1 =
      ps.countP (fun q => decide (q.1 = name)) := by
  rw [SetDefault_fst_of_any_true name ps h]
  exact countDefaults_allMap ps (fun q => decide (q.1 = name)) _ (fun q => rfl)

theorem any_false_of_Get_none (k : String) (ps : Profiles)
    (h : profile.Get k ps = none) :
    ps.any (fun q => decide (q.1 = k)) = false := by
  unfold profile.Get at h
  cases hf : ps.find? (fun q => decide (q.1 = k)) with
  | none =>
    rw [List.any_eq_false]
    intro q hq
    rw [List.find?_eq_none] at hf
    exact hf q hq
  | some q => rw [hf] at h; cases h

theorem editProfile_fst (profileName : String) (makeDefault : Bool) (ps : Profiles)
    (ar : AuthorizationResult) (now : Int) :
    (editProfile profileName makeDefault ps ar now).1 =
      (profile.Edit profileName ps (editProfileFn makeDefault ar now)).1 := by
  simp only [editProfile]
  split <;> rfl

theorem editProfile_snd_of_any_true (profileName : String) (makeDefault : Bool)
    (ps : Profiles) (ar : AuthorizationResult) (now : Int)
    (h : ps.any (fun q => decide (q.1 = profileName)) = true) :
    (editProfile profileName makeDefault ps ar now).2 = none := by
  simp only [editProfile]
  rw [Edit_snd]
  simp [h]

theorem editProfile_snd_of_any_false (profileName : String) (makeDefault : Bool)
    (ps : Profiles) (ar : AuthorizationResult) (now : Int)
    (h : ps.any (fun q => decide (q.1 = profileName)) = false) :
    (editProfile profileName makeDefault ps ar now).2 =
      some (CLIError.remediationError
        (CLIError.failedToUpdateProfileTokenData profileName)
        "Run fastly sso to retry.") := by
  simp only [editProfile]
  rw [Edit_snd]
  simp [h]

theorem processUpdateProfile_of_get_some (c : RootCommand) (ar : AuthorizationResult)
    (name : String) (ps : Profiles) (now : Int) (p : Profile)
    (hg : profile.Get name ps = some p) :
    processUpdateProfile c ar name ps now =
      ((profile.Edit name ps (editProfileFn
          (if c.InvokedFromProfileUpdate then c.ProfileDefault else p.Default)
          ar now)).1, none) := by
  have hany := any_true_of_Get_some name ps p hg
  simp only [processUpdateProfile, hg]
  rw [editProfile_snd_of_any_true _ _ _ _ _ hany, editProfile_fst]

theorem processUpdateProfile_of_get_none (c : RootCommand) (ar : AuthorizationResult)
    (name : String) (ps : Profiles) (now : Int)
    (hg : profile.Get name ps = none) :
    processUpdateProfile c ar name ps now =
      (ps, some (CLIError.remediationError
        (CLIError.failedToUpdateProfileTokenData name)
        "Run fastly sso to retry.")) := by
  have hany := any_false_of_Get_none name ps hg
  simp only [processUpdateProfile, hg]
  rw [editProfile_snd_of_any_false _ _ _ _ _ hany]

theorem newProfileRecord_Default (ar : AuthorizationResult) (now : Int) (mk : Bool) :
    (newProfileRecord ar now mk).Default = mk := rfl

theorem mapSet_nil (k : String) (v : Profile) :
    mapSet [] k v = [(k, v)] := rfl

theorem countDefaults_processUpdateProfile_le (c : RootCommand)
    (ar : AuthorizationResult) (name : String) (ps : Profiles) (now : Int)
    (hnd : (ps.map Prod.fst).Nodup) (h1 : countDefaults ps ≤ 1)
    (hupd : ¬(c.InvokedFromProfileUpdate = true ∧ c.ProfileDefault = true)) :
    countDefaults (processUpdateProfile c ar name ps now).1 ≤ 1 := by
  cases hg : profile.Get name ps with
  | none =>
    rw [processUpdateProfile_of_get_none c ar name ps now hg]
    exact h1
  | some p =>
    rw [processUpdateProfile_of_get_some c ar name ps now p hg]
    rw [countDefaults_Edit]
    by_cases hiu : c.InvokedFromProfileUpdate = true
    · have hpd : c.ProfileDefault = false := by
        by_cases h : c.ProfileDefault = true
        · exact absurd ⟨hiu, h⟩ hupd
        · rwa [Bool.not_eq_true] at h
      refine le_trans (List.countP_mono_left ?_) h1
      intro q _ hq
      by_cases hk : q.1 = name
      · rw [if_pos hk] at hq
        have hDef : (editProfileFn (if c.InvokedFromProfileUpdate then
            c.ProfileDefault else p.Default) ar now q.2).Default =
              c.ProfileDefault := by
          simp [editProfileFn, hiu]
        rw [hDef, hpd] at hq
        cases hq
      · rwa [if_neg hk] at hq
    · have heq : (ps.countP (fun q =>
          if q.1 = name then (editProfileFn (if c.InvokedFromProfileUpdate then
            c.ProfileDefault else p.Default) ar now q.2).Default
          else q.2.Default)) = ps.countP (fun q => q.2.Default) := by
        apply List.countP_congr
        intro q hq
        by_cases hk : q.1 = name
        · have hgq := Get_eq_of_mem ps name q hnd hq hk
          rw [hg] at hgq
          have hq2 : p = q.2 := by injection hgq
          have hDef : (editProfileFn (if c.InvokedFromProfileUpdate then
              c.ProfileDefault else p.Default) ar now q.2).Default = p.Default := by
            simp [editProfileFn, hiu]
          rw [if_pos hk, hDef, hq2]
        · rw [if_neg hk]
      rw [heq]
      exact h1

theorem countDefaults_processCreateProfile_le (c : RootCommand)
    (ar : AuthorizationResult) (name : String) (ps : Profiles) (now : Int)
    (hnd : (ps.map Prod.fst).Nodup) (h1 : countDefaults ps ≤ 1)
    (hcase : (c.InvokedFromProfileCreate = true ∧ name = c.ProfileCreateName) ∨
      ps = []) :
    countDefaults (processCreateProfile c ar name ps now) ≤ 1 := by
  simp only [processCreateProfile, createNewProfile]
  by_cases hPD : c.ProfileDefault = true
  · rw [if_pos hPD]
    cases hsd : (profile.SetDefault c.ProfileCreateName
        (mapSet ps name (newProfileRecord ar now
          (if c.InvokedFromProfileCreate then c.ProfileDefault else true)))).2 with
    | true =>
      rw [if_pos rfl]
      have hany := hsd
      rw [SetDefault_snd] at hany
      rw [countDefaults_SetDefault_of_any_true _ _ hany]
      exact countKey_le_one _ _ (mapSet_nodup ps name _ hnd)
    | false =>
      simp only [Bool.false_eq_true, if_false]
      rcases hcase with ⟨hic, hnm⟩ | hps
      · exfalso
        rw [SetDefault_snd, ← hnm, hasKey_mapSet_self] at hsd
        cases hsd
      · subst hps
        rw [countDefaults_mapSet_of_not_hasKey [] name _ rfl]
        have hz : countDefaults ([] : Profiles) = 0 := rfl
        rw [hz, newProfileRecord_Default]
        split <;> decide
  · rw [if_neg hPD]
    have hpdf : c.ProfileDefault = false := by rwa [Bool.not_eq_true] at hPD
    by_cases hic : c.InvokedFromProfileCreate = true
    · refine le_trans (countDefaults_mapSet_le ps name _ ?_) h1
      rw [newProfileRecord_Default, if_pos hic]
      exact hpdf
    · rcases hcase with ⟨hic2, _⟩ | hps
      · exact absurd hic2 hic
      · subst hps
        rw [countDefaults_mapSet_of_not_hasKey [] name _ rfl]
        have hz : countDefaults ([] : Profiles) = 0 := rfl
        rw [hz, newProfileRecord_Default]
        split <;> decide

theorem processCreateProfile_clears_others (c : RootCommand)
    (ar : AuthorizationResult) (name : String) (ps : Profiles) (now : Int)
    (hcase : (c.InvokedFromProfileCreate = true ∧ name = c.ProfileCreateName) ∨
      ps = [])
    (hPD : c.ProfileDefault = true) :
    ∀ q ∈ processCreateProfile c ar name ps now, q.1 ≠ name →
      q.2.Default = false := by
  intro q hq hqname
  simp only [processCreateProfile, createNewProfile, if_pos hPD] at hq
  cases hsd : (profile.SetDefault c.ProfileCreateName
      (mapSet ps name (newProfileRecord ar now
        (if c.InvokedFromProfileCreate then c.ProfileDefault else true)))).2 with
  | true =>
    rw [hsd] at hq
    simp only [if_true] at hq
    have hany := hsd
    rw [SetDefault_snd] at hany
    rw [SetDefault_fst_of_any_true _ _ hany] at hq
    rcases List.mem_map.mp hq with ⟨a, ha, haq⟩
    subst haq
    have ha1 : a.1 ≠ name := hqname
    show decide (a.1 = c.ProfileCreateName) = false
    rcases hcase with ⟨hic, hnm⟩ | hps
    · apply decide_eq_false
      intro hac
      exact ha1 (by rw [hac, ← hnm])
    · subst hps
      rw [mapSet_nil] at ha
      have := List.mem_singleton.mp ha
      exact absurd (by rw [this]) ha1
  | false =>
    rw [hsd] at hq
    simp only [Bool.false_eq_true, if_false] at hq
    rcases hcase with ⟨hic, hnm⟩ | hps
    · exfalso
      rw [SetDefault_snd, ← hnm, hasKey_mapSet_self] at hsd
      cases hsd
    · subst hps
      rw [mapSet_nil] at hq
      have := List.mem_singleton.mp hq
      exact absurd (by rw [this]) hqname

theorem identify_create_cases (c : RootCommand) (ps : Profiles)
    (hne : ∀ k ∈ ps.map Prod.fst, k ≠ "")
    (hflow : (identifyProfileAndFlow c ps).2.1 = ProfileFlow.ProfileCreate) :
    (c.InvokedFromProfileCreate = true ∧
      (identifyProfileAndFlow c ps).1 = c.ProfileCreateName ∧
      c.ProfileCreateName ≠ "")
    ∨ (ps = [] ∧ (identifyProfileAndFlow c ps).1 = profile.DefaultName) := by
  by_cases hf : c.FlagsProfile ≠ ""
  · rw [identify_of_flag c ps hf] at hflow; cases hflow
  push_neg at hf
  by_cases hm : c.ManifestProfile ≠ ""
  · rw [identify_of_manifest c ps hf hm] at hflow; cases hflow
  push_neg at hm
  by_cases hp : c.profile ≠ ""
  · rw [identify_of_positional c ps hf hm hp] at hflow; cases hflow
  push_neg at hp
  by_cases h4 : c.InvokedFromProfileCreate = true ∧ c.ProfileCreateName ≠ ""
  · left
    rw [identify_of_createName c ps hf hm hp h4.1 h4.2]
    exact ⟨h4.1, rfl, h4.2⟩
  by_cases h5 : c.InvokedFromProfileUpdate = true ∧ c.ProfileUpdateName ≠ ""
  · rw [identify_of_updateName c ps hf hm hp h4 h5.1 h5.2] at hflow; cases hflow
  by_cases h6 : profile.Default ps ≠ ""
  · rw [identify_of_currentDefault c ps hf hm hp h4 h5 h6] at hflow; cases hflow
  push_neg at h6
  cases hps : ps with
  | nil =>
    subst hps
    right
    refine ⟨rfl, ?_⟩
    rw [identify_of_fallback c [] hf hm hp h4 h5 h6 (Or.inl rfl)]
  | cons a t =>
    exfalso
    subst hps
    have hlen : 0 < (a :: t).length := by simp
    have h8 : (profile.SetADefault (a :: t)).1 ≠ "" := by
      rw [SetADefault_fst]
      exact hne a.1 (List.mem_map_of_mem Prod.fst (List.mem_cons_self a t))
    rw [identify_of_newDefault c (a :: t) hf hm hp h4 h5 h6 hlen h8] at hflow
    cases hflow


theorem processProfiles_create_eq (c : RootCommand) (ar : AuthorizationResult)
    (now : Int) (writeOk : Bool) (w : World) (nm : String) (ps2 : Profiles)
    (hI : identifyProfileAndFlow c w.profiles =
      (nm, ProfileFlow.ProfileCreate, ps2)) :
    processProfiles c ar now writeOk w =
      (if writeOk then
        ({ profiles := processCreateProfile c ar nm ps2 now,
           disk := some (processCreateProfile c ar nm ps2 now) }, none)
       else
        ({ profiles := processCreateProfile c ar nm ps2 now, disk := w.disk },
         some CLIError.failedToUpdateConfigFile)) := by
  simp only [processProfiles, hI]

theorem processProfiles_update_some (c : RootCommand) (ar : AuthorizationResult)
    (now : Int) (writeOk : Bool) (w : World) (nm : String) (ps2 : Profiles)
    (e : CLIError)
    (hI : identifyProfileAndFlow c w.profiles =
      (nm, ProfileFlow.ProfileUpdate, ps2))
    (hu : (processUpdateProfile c ar nm ps2 now).2 = some e) :
    processProfiles c ar now writeOk w =
      ({ w with profiles := ps2 }, some (CLIError.failedToUpdateProfile e)) := by
  simp only [processProfiles, hI]
  simp [hu]

theorem processProfiles_update_none (c : RootCommand) (ar : AuthorizationResult)
    (now : Int) (writeOk : Bool) (w : World) (nm : String) (ps2 : Profiles)
    (hI : identifyProfileAndFlow c w.profiles =
      (nm, ProfileFlow.ProfileUpdate, ps2))
    (hu : (processUpdateProfile c ar nm ps2 now).2 = none) :
    processProfiles c ar now writeOk w =
      (if writeOk then
        ({ profiles := (processUpdateProfile c ar nm ps2 now).1,
           disk := some ((processUpdateProfile c ar nm ps2 now).1) }, none)
       else
        ({ profiles := (processUpdateProfile c ar nm ps2 now).1, disk := w.disk },
         some CLIError.failedToUpdateConfigFile)) := by
  simp only [processProfiles, hI]
  cases writeOk <;> simp [hu]

theorem processProfiles_writeFail_ne_none (c : RootCommand)
    (ar : AuthorizationResult) (now : Int) (w : World) :
    (processProfiles c ar now false w).2 ≠ none := by
  rcases hI : identifyProfileAndFlow c w.profiles with ⟨nm, fl, ps2⟩
  simp only [processProfiles, hI]
  cases fl
  · simp
  · simp
  · cases hu : (processUpdateProfile c ar nm ps2 now).2 <;> simp [hu]

/-
  Claim theorems.
-/

/-- C8: for the four commands that support both verbose mode and the --json
flag (s3 logging list, vcl condition list, service describe, tls custom
activation describe), when verbose and JSON output are both enabled, Exec
returns ErrInvalidVerboseJSONCombo immediately, with no service-details or
service-ID resolution and no API client call. -/
theorem c8_verbose_json_combo_rejected_first {α β γ δ : Type}
    (sd1 sd2 : Except CmdError (String × Int))
    (api1 : String → Int → Except CmdError α)
    (api2 : String → Int → Except CmdError β)
    (res : Except CmdError (String × ManifestSource)) (ws : Bool)
    (api3 : String → Except CmdError γ)
    (id : String) (api4 : String → Except CmdError δ) :
    s3.ListExec true true sd1 api1 = (some CmdError.InvalidVerboseJSONCombo, []) ∧
    condition.ListExec true true sd2 api2 =
      (some CmdError.InvalidVerboseJSONCombo, []) ∧
    service.DescribeExec true true ws res api3 =
      (some CmdError.InvalidVerboseJSONCombo, []) ∧
    activation.DescribeExec true true id api4 =
      (some CmdError.InvalidVerboseJSONCombo, []) :=
  ⟨rfl, rfl, rfl, rfl⟩

/-- C10: for the service describe command, when the service ID resolution
reports source undefined and the --service-name flag was not set, Exec
returns ErrNoServiceID without invoking GetServiceDetails (assuming the
verbose/json combo guard did not already fire). -/
theorem c10_no_service_id_before_api {α : Type} (verbose jsonEnabled : Bool)
    (h : (verbose && jsonEnabled) = false) (sid : String)
    (api : String → Except CmdError α) :
    service.DescribeExec verbose jsonEnabled false
        (Except.ok (sid, ManifestSource.SourceUndefined)) api =
      (some CmdError.NoServiceID, [Event.ServiceIDResolved]) := by
  simp [service.DescribeExec, h]

/-- Witness for C10 at a concrete input. -/
theorem c10_no_service_id_before_api_witness :
    ((false && false) = false) ∧
      service.DescribeExec false false false
          (Except.ok ("", ManifestSource.SourceUndefined))
          (fun _ => (Except.ok 0 : Except CmdError Nat)) =
        (some CmdError.NoServiceID, [Event.ServiceIDResolved]) :=
  ⟨rfl, c10_no_service_id_before_api false false rfl "" (fun _ => Except.ok 0)⟩

/-- C6: if the authorization callback result carries an error or an empty
session token, the sso Exec returns a remediation error and leaves the
profile mapping and the on-disk config file untouched (the returned world is
the input world). -/
theorem c6_auth_failure_aborts_without_mutation (c : RootCommand)
    (ar : AuthorizationResult) (now : Int) (writeOk : Bool) (w : World)
    (h : ar.Err.isSome = true ∨ ar.SessionToken = "") :
    execAfterAuth c ar now writeOk w =
      (w, some (CLIError.remediationError
        (CLIError.failedToAuthorize ar.Err.isNone) auth.Remediation)) := by
  unfold execAfterAuth
  rw [if_pos h]

/-- Witness for C6 at a concrete input. -/
theorem c6_auth_failure_aborts_without_mutation_witness :
    (arNoToken.Err.isSome = true ∨ arNoToken.SessionToken = "") ∧
      execAfterAuth cmdBlank arNoToken 0 true { profiles := [], disk := none } =
        ({ profiles := [], disk := none },
         some (CLIError.remediationError
           (CLIError.failedToAuthorize arNoToken.Err.isNone) auth.Remediation)) :=
  ⟨Or.inr rfl,
   c6_auth_failure_aborts_without_mutation cmdBlank arNoToken 0 true
     { profiles := [], disk := none } (Or.inr rfl)⟩

/-- C7: after reconciliation processProfiles serializes the full profile
mapping to the config file (on success the disk holds exactly the final
in-memory mapping), and any write failure yields a non-nil error. -/
theorem c7_config_write_serialized_or_error (c : RootCommand)
    (ar : AuthorizationResult) (now : Int) (w : World) :
    ((processProfiles c ar now false w).2 ≠ none) ∧
    ((processProfiles c ar now true w).2 = none →
      (processProfiles c ar now true w).1.disk =
        some (processProfiles c ar now true w).1.profiles) := by
  constructor
  · exact processProfiles_writeFail_ne_none c ar now w
  · intro hok
    rcases hI : identifyProfileAndFlow c w.profiles with ⟨nm, fl, ps2⟩
    simp only [processProfiles, hI] at hok ⊢
    cases fl
    · simp
    · simp
    · cases hu : (processUpdateProfile c ar nm ps2 now).2 <;> simp [hu] at hok ⊢

/-- Witness for C7 at a concrete input, with the success premise discharged
by evaluation. -/
theorem c7_config_write_serialized_or_error_witness :
    (processProfiles cmdBlank arGood 0 false { profiles := [], disk := none }).2 ≠
        none ∧
      (processProfiles cmdBlank arGood 0 true
            { profiles := [], disk := none }).1.disk =
        some (processProfiles cmdBlank arGood 0 true
            { profiles := [], disk := none }).1.profiles :=
  ⟨(c7_config_write_serialized_or_error cmdBlank arGood 0
      { profiles := [], disk := none }).1,
   (c7_config_write_serialized_or_error cmdBlank arGood 0
      { profiles := [], disk := none }).2 (by decide)⟩

/-- C5: the reconciliation step writes exactly the listed token fields into
the selected profile record: the access token, its TTL, the refresh token,
its TTL, the email and the session token come from the authorization result,
the two creation times are stamped with the current time, and (in the edit
path) every other profile entry is left unchanged. -/
theorem c5_token_fields_persisted (name : String) (mk : Bool) (ps : Profiles)
    (ar : AuthorizationResult) (now : Int) (p : Profile)
    (hg : profile.Get name ps = some p) :
    profile.Get name (createNewProfile name mk ps ar now) =
      some { AccessToken := ar.Jwt.AccessToken, AccessTokenCreated := now,
             AccessTokenTTL := ar.Jwt.ExpiresIn, Default := mk,
             Email := ar.Email, RefreshToken := ar.Jwt.RefreshToken,
             RefreshTokenCreated := now,
             RefreshTokenTTL := ar.Jwt.RefreshExpiresIn,
             Token := ar.SessionToken } ∧
    profile.Get name (editProfile name mk ps ar now).1 =
      some { p with
             Default := mk
             AccessToken := ar.Jwt.AccessToken
             AccessTokenCreated := now
             AccessTokenTTL := ar.Jwt.ExpiresIn
             Email := ar.Email
             RefreshToken := ar.Jwt.RefreshToken
             RefreshTokenCreated := now
             RefreshTokenTTL := ar.Jwt.RefreshExpiresIn
             Token := ar.SessionToken } ∧
    (∀ k2, k2 ≠ name →
      profile.Get k2 (editProfile name mk ps ar now).1 = profile.Get k2 ps) := by
  refine ⟨?_, ?_, ?_⟩
  · exact Get_mapSet_self ps name _
  · rw [editProfile_fst, Get_Edit_self, hg]
    rfl
  · intro k2 hk2
    rw [editProfile_fst, Get_Edit_other name k2 ps _ hk2]

/-- Witness for C5 at a concrete input. -/
theorem c5_token_fields_persisted_witness :
    profile.Get "a" [("a", pfPlain)] = some pfPlain ∧
      profile.Get "a" (createNewProfile "a" true [("a", pfPlain)] arGood 7) =
        some { AccessToken := arGood.Jwt.AccessToken, AccessTokenCreated := 7,
               AccessTokenTTL := arGood.Jwt.ExpiresIn, Default := true,
               Email := arGood.Email, RefreshToken := arGood.Jwt.RefreshToken,
               RefreshTokenCreated := 7,
               RefreshTokenTTL := arGood.Jwt.RefreshExpiresIn,
               Token := arGood.SessionToken } :=
  ⟨by decide,
   (c5_token_fields_persisted "a" true [("a", pfPlain)] arGood 7 pfPlain
     (by decide)).1⟩

/-- C9: when the update flow is not invoked from `profile update`,
processUpdateProfile succeeds on an existing profile, rewrites exactly the
token fields, timestamps, TTLs, email and session token, and the resulting
Default flag equals the profile's Default flag before the update. -/
theorem c9_update_preserves_default_flag (c : RootCommand)
    (ar : AuthorizationResult) (name : String) (ps : Profiles) (now : Int)
    (p : Profile) (hu : c.InvokedFromProfileUpdate = false)
    (hg : profile.Get name ps = some p) :
    (processUpdateProfile c ar name ps now).2 = none ∧
    profile.Get name (processUpdateProfile c ar name ps now).1 =
      some { p with
             AccessToken := ar.Jwt.AccessToken
             AccessTokenCreated := now
             AccessTokenTTL := ar.Jwt.ExpiresIn
             Email := ar.Email
             RefreshToken := ar.Jwt.RefreshToken
             RefreshTokenCreated := now
             RefreshTokenTTL := ar.Jwt.RefreshExpiresIn
             Token := ar.SessionToken } ∧
    (profile.Get name (processUpdateProfile c ar name ps now).1).map
        Profile.Default = some p.Default := by
  have hrw := processUpdateProfile_of_get_some c ar name ps now p hg
  rw [hrw]
  have hif : (if c.InvokedFromProfileUpdate then c.ProfileDefault
      else p.Default) = p.Default := by rw [hu]; rfl
  refine ⟨rfl, ?_, ?_⟩
  · rw [Get_Edit_self, hg, hif]
    rfl
  · rw [Get_Edit_self, hg, hif]
    rfl

/-- Witness for C9 at a concrete input. -/
theorem c9_update_preserves_default_flag_witness :
    cmdBlank.InvokedFromProfileUpdate = false ∧
      profile.Get "b" [("b", pfTheDefault)] = some pfTheDefault ∧
      (profile.Get "b"
          (processUpdateProfile cmdBlank arGood "b" [("b", pfTheDefault)] 3).1).map
        Profile.Default = some pfTheDefault.Default :=
  ⟨rfl, by decide,
   (c9_update_preserves_default_flag cmdBlank arGood "b" [("b", pfTheDefault)] 3
     pfTheDefault rfl (by decide)).2.2⟩

/-- C4: when the profile mapping is empty and no profile name is supplied by
flag, argument or manifest (a plain `fastly sso` invocation), processProfiles
creates exactly one new profile, named "default", and marks it as the
default; with a successful write it reports no error. -/
theorem c4_empty_mapping_creates_default (c : RootCommand)
    (ar : AuthorizationResult) (now : Int) (writeOk : Bool) (w : World)
    (hps : w.profiles = []) (hf : c.FlagsProfile = "") (hm : c.ManifestProfile = "")
    (hp : c.profile = "") (hcn : c.ProfileCreateName = "")
    (hc : c.InvokedFromProfileCreate = false)
    (hu : c.InvokedFromProfileUpdate = false) :
    (processProfiles c ar now writeOk w).1.profiles =
      [(profile.DefaultName, newProfileRecord ar now true)] ∧
    (newProfileRecord ar now true).Default = true ∧
    (writeOk = true → (processProfiles c ar now writeOk w).2 = none) := by
  have h4 : ¬(c.InvokedFromProfileCreate = true ∧ c.ProfileCreateName ≠ "") := by
    intro hx
    rw [hc] at hx
    cases hx.1
  have h5 : ¬(c.InvokedFromProfileUpdate = true ∧ c.ProfileUpdateName ≠ "") := by
    intro hx
    rw [hu] at hx
    cases hx.1
  have h6 : profile.Default w.profiles = "" := by rw [hps]; rfl
  have hI := identify_of_fallback c w.profiles hf hm hp h4 h5 h6 (Or.inl hps)
  have hadj : adjustedProfiles w.profiles = [] := by rw [hps]; rfl
  rw [hadj] at hI
  have hcreate : processCreateProfile c ar profile.DefaultName [] now =
      [(profile.DefaultName, newProfileRecord ar now true)] := by
    simp only [processCreateProfile, createNewProfile, hc, Bool.false_eq_true,
      if_false, mapSet_nil, hcn]
    have hnm : profile.DefaultName ≠ "" := by decide
    have hsd : (profile.SetDefault ""
        [(profile.DefaultName, newProfileRecord ar now true)]).2 = false := by
      rw [SetDefault_snd]
      show (decide (profile.DefaultName = "") || false) = false
      rw [decide_eq_false hnm]
      rfl
    rw [hsd]
    simp
  rw [processProfiles_create_eq c ar now writeOk w profile.DefaultName [] hI]
  refine ⟨?_, rfl, ?_⟩
  · cases writeOk <;> simp [hcreate]
  · intro hw
    subst hw
    simp

/-- Witness for C4 at a concrete input. -/
theorem c4_empty_mapping_creates_default_witness :
    (processProfiles cmdBlank arGood 4 true { profiles := [], disk := none }).1.profiles =
        [(profile.DefaultName, newProfileRecord arGood 4 true)] ∧
      (processProfiles cmdBlank arGood 4 true { profiles := [], disk := none }).2 =
        none :=
  ⟨(c4_empty_mapping_creates_default cmdBlank arGood 4 true
      { profiles := [], disk := none } rfl rfl rfl rfl rfl rfl rfl).1,
   (c4_empty_mapping_creates_default cmdBlank arGood 4 true
      { profiles := [], disk := none } rfl rfl rfl rfl rfl rfl rfl).2.2 rfl⟩

/-- C3 counterexample: with the global --profile flag naming "userx" and no
profile of that name present, processProfiles returns an error and creates no
profile, contradicting the claim that a missing explicit profile is created. -/
theorem c3_counterexample_no_create :
    (processProfiles cmdFlagOnly arGood 0 true { profiles := [], disk := none }).2 ≠
        none ∧
      (processProfiles cmdFlagOnly arGood 0 true
          { profiles := [], disk := none }).1.profiles = [] ∧
      (processProfiles cmdFlagOnly arGood 0 true
          { profiles := [], disk := none }).1.disk = none := by
  decide

/-- C3 (amended): an explicit profile name given via the global flag, the
manifest or the positional argument always selects the update flow; if a
profile of that name exists it is updated in place (its session token becomes
the new one), and if it does not exist processProfiles returns an error and
still has no profile of that name (it is not created). -/
theorem c3_amended_explicit_update_or_error (c : RootCommand)
    (ar : AuthorizationResult) (now : Int) (w : World)
    (hexp : c.FlagsProfile ≠ "" ∨ (c.FlagsProfile = "" ∧ c.ManifestProfile ≠ "") ∨
      (c.FlagsProfile = "" ∧ c.ManifestProfile = "" ∧ c.profile ≠ "")) :
    (identifyProfileAndFlow c w.profiles).2.1 = ProfileFlow.ProfileUpdate ∧
    (∀ p, profile.Get (identifyProfileAndFlow c w.profiles).1
        (identifyProfileAndFlow c w.profiles).2.2 = some p →
      (processProfiles c ar now true w).2 = none ∧
      (profile.Get (identifyProfileAndFlow c w.profiles).1
          (processProfiles c ar now true w).1.profiles).map (fun q => q.Token) =
        some ar.SessionToken) ∧
    (profile.Get (identifyProfileAndFlow c w.profiles).1
        (identifyProfileAndFlow c w.profiles).2.2 = none →
      (processProfiles c ar now true w).2 ≠ none ∧
      profile.Get (identifyProfileAndFlow c w.profiles).1
        (processProfiles c ar now true w).1.profiles = none) := by
  obtain ⟨nm, hI⟩ : ∃ nm, identifyProfileAndFlow c w.profiles =
      (nm, ProfileFlow.ProfileUpdate, adjustedProfiles w.profiles) := by
    rcases hexp with h | ⟨h1, h⟩ | ⟨h1, h2, h⟩
    · exact ⟨c.FlagsProfile, identify_of_flag c w.profiles h⟩
    · exact ⟨c.ManifestProfile, identify_of_manifest c w.profiles h1 h⟩
    · exact ⟨c.profile, identify_of_positional c w.profiles h1 h2 h⟩
  rw [hI]
  refine ⟨rfl, ?_, ?_⟩
  · intro p hp
    have hrw := processUpdateProfile_of_get_some c ar nm
      (adjustedProfiles w.profiles) now p hp
    have hpp := processProfiles_update_none c ar now true w nm
      (adjustedProfiles w.profiles) hI (by rw [hrw])
    rw [hpp, if_pos rfl]
    refine ⟨rfl, ?_⟩
    have h1 : (processUpdateProfile c ar nm (adjustedProfiles w.profiles) now).1 =
        (profile.Edit nm (adjustedProfiles w.profiles)
          (editProfileFn (if c.InvokedFromProfileUpdate then c.ProfileDefault
            else p.Default) ar now)).1 := by rw [hrw]
    show (profile.Get nm (processUpdateProfile c ar nm
        (adjustedProfiles w.profiles) now).1).map (fun q => q.Token) =
      some ar.SessionToken
    rw [h1, Get_Edit_self, hp]
    rfl
  · intro hp
    have hrw := processUpdateProfile_of_get_none c ar nm
      (adjustedProfiles w.profiles) now hp
    have hpp := processProfiles_update_some c ar now true w nm
      (adjustedProfiles w.profiles) _ hI (by rw [hrw])
    rw [hpp]
    constructor
    · simp
    · show profile.Get nm (adjustedProfiles w.profiles) = none
      exact hp

/-- Witness for C3's amended theorem at a concrete input. -/
theorem c3_amended_explicit_update_or_error_witness :
    (cmdFlagOnly.FlagsProfile ≠ "" ∨
        (cmdFlagOnly.FlagsProfile = "" ∧ cmdFlagOnly.ManifestProfile ≠ "") ∨
        (cmdFlagOnly.FlagsProfile = "" ∧ cmdFlagOnly.ManifestProfile = "" ∧
          cmdFlagOnly.profile ≠ "")) ∧
      (identifyProfileAndFlow cmdFlagOnly
          ({ profiles := [], disk := none } : World).profiles).2.1 =
        ProfileFlow.ProfileUpdate :=
  ⟨Or.inl (by decide),
   (c3_amended_explicit_update_or_error cmdFlagOnly arGood 0
      { profiles := [], disk := none } (Or.inl (by decide))).1⟩

/-- C2 counterexample: with no --profile flag, no manifest profile, no
positional argument and no existing default profile (the sole profile
"alpha" has its default flag unset), the claimed precedence bottoms out at
the literal "default"; identifyProfileAndFlow instead selects "alpha", the
existing profile that profile.SetADefault just promoted to default. -/
theorem c2_counterexample_precedence :
    profile.Default [("alpha", pfPlain)] = "" ∧
      (identifyProfileAndFlow cmdBlank [("alpha", pfPlain)]).1 = "alpha" ∧
      "alpha" ≠ profile.DefaultName := by
  decide

/-- C2 (amended): for a plain sso invocation the selection precedence is:
explicit CLI flag, then manifest profile, then positional argument, then the
existing default profile's name; when no profile is the default but profiles
exist, the (nonempty-named) profile promoted by SetADefault; the literal
"default" only when no profile exists at all. -/
theorem c2_amended_selection_precedence (c : RootCommand) (ps : Profiles)
    (hc : c.InvokedFromProfileCreate = false)
    (hu : c.InvokedFromProfileUpdate = false) :
    (c.FlagsProfile ≠ "" → (identifyProfileAndFlow c ps).1 = c.FlagsProfile) ∧
    (c.FlagsProfile = "" → c.ManifestProfile ≠ "" →
      (identifyProfileAndFlow c ps).1 = c.ManifestProfile) ∧
    (c.FlagsProfile = "" → c.ManifestProfile = "" → c.profile ≠ "" →
      (identifyProfileAndFlow c ps).1 = c.profile) ∧
    (c.FlagsProfile = "" → c.ManifestProfile = "" → c.profile = "" →
      profile.Default ps ≠ "" →
      (identifyProfileAndFlow c ps).1 = profile.Default ps) ∧
    (c.FlagsProfile = "" → c.ManifestProfile = "" → c.profile = "" →
      profile.Default ps = "" → ps ≠ [] → (profile.SetADefault ps).1 ≠ "" →
      (identifyProfileAndFlow c ps).1 = (profile.SetADefault ps).1) ∧
    (c.FlagsProfile = "" → c.ManifestProfile = "" → c.profile = "" →
      profile.Default ps = "" → ps = [] →
      (identifyProfileAndFlow c ps).1 = profile.DefaultName) := by
  have h4 : ¬(c.InvokedFromProfileCreate = true ∧ c.ProfileCreateName ≠ "") := by
    intro hx
    rw [hc] at hx
    cases hx.1
  have h5 : ¬(c.InvokedFromProfileUpdate = true ∧ c.ProfileUpdateName ≠ "") := by
    intro hx
    rw [hu] at hx
    cases hx.1
  refine ⟨?_, ?_, ?_, ?_, ?_, ?_⟩
  · intro h
    rw [identify_of_flag c ps h]
  · intro h1 h
    rw [identify_of_manifest c ps h1 h]
  · intro h1 h2 h
    rw [identify_of_positional c ps h1 h2 h]
  · intro h1 h2 h3 h
    rw [identify_of_currentDefault c ps h1 h2 h3 h4 h5 h]
  · intro h1 h2 h3 h6 hne hsad
    have hlen : 0 < ps.length := List.length_pos.mpr hne
    rw [identify_of_newDefault c ps h1 h2 h3 h4 h5 h6 hlen hsad]
  · intro h1 h2 h3 h6 hnil
    rw [identify_of_fallback c ps h1 h2 h3 h4 h5 h6 (Or.inl hnil)]

/-- Witness for C2's amended theorem at a concrete input. -/
theorem c2_amended_selection_precedence_witness :
    cmdFlagOnly.InvokedFromProfileCreate = false ∧
      cmdFlagOnly.FlagsProfile ≠ "" ∧
      (identifyProfileAndFlow cmdFlagOnly []).1 = cmdFlagOnly.FlagsProfile :=
  ⟨rfl, by decide,
   (c2_amended_selection_precedence cmdFlagOnly [] rfl rfl).1 (by decide)⟩

/-- C1 counterexample: starting from a mapping with at most one default
profile ("b"), running the flow for `profile update a --default` succeeds and
leaves two profiles with default = true: the update flow sets the selected
profile's default flag without clearing the others. -/
theorem c1_counterexample_two_defaults :
    countDefaults worldAB.profiles ≤ 1 ∧
      (processProfiles cmdUpdateADefault arGood 0 true worldAB).2 = none ∧
      countDefaults
        (processProfiles cmdUpdateADefault arGood 0 true worldAB).1.profiles =
        2 := by
  decide

/-- C1 (amended): for a mapping with unique nonempty profile names and at
most one default profile, if processProfiles succeeds and the make-default
flag was not requested in the update flow, at most one profile in the result
has default = true; moreover, in the create flow with the make-default flag
set, every profile other than the selected one ends with default = false. -/
theorem c1_amended_at_most_one_default (c : RootCommand)
    (ar : AuthorizationResult) (now : Int) (writeOk : Bool) (w : World)
    (hnd : (w.profiles.map Prod.fst).Nodup)
    (hne : ∀ k ∈ w.profiles.map Prod.fst, k ≠ "")
    (h1 : countDefaults w.profiles ≤ 1)
    (hupd : ¬(c.InvokedFromProfileUpdate = true ∧ c.ProfileDefault = true))
    (hok : (processProfiles c ar now writeOk w).2 = none) :
    countDefaults (processProfiles c ar now writeOk w).1.profiles ≤ 1 ∧
    (c.ProfileDefault = true →
      (identifyProfileAndFlow c w.profiles).2.1 = ProfileFlow.ProfileCreate →
      ∀ q ∈ (processProfiles c ar now writeOk w).1.profiles,
        q.1 ≠ (identifyProfileAndFlow c w.profiles).1 → q.2.Default = false) := by
  cases writeOk with
  | false => exact absurd hok (processProfiles_writeFail_ne_none c ar now w)
  | true =>
  have hkeys : (adjustedProfiles w.profiles).map Prod.fst =
      w.profiles.map Prod.fst := adjustedProfiles_keys w.profiles
  have hnd2 : ((adjustedProfiles w.profiles).map Prod.fst).Nodup := by
    rw [hkeys]; exact hnd
  have hne2 : ∀ k ∈ (adjustedProfiles w.profiles).map Prod.fst, k ≠ "" := by
    rw [hkeys]; exact hne
  have h12 : countDefaults (adjustedProfiles w.profiles) ≤ 1 :=
    countDefaults_adjustedProfiles_le w.profiles hne h1
  rcases hI : identifyProfileAndFlow c w.profiles with ⟨nm, fl, ps2⟩
  have hps2 : ps2 = adjustedProfiles w.profiles := by
    have h := identify_third c w.profiles
    rw [hI] at h
    exact h
  subst hps2
  simp only [hI]
  cases fl with
  | ProfileNone =>
    refine ⟨?_, ?_⟩
    · simp only [processProfiles, hI]
      simp
      exact h12
    · intro _ hflow
      simp at hflow
  | ProfileCreate =>
    have hflow2 : (identifyProfileAndFlow c w.profiles).2.1 =
        ProfileFlow.ProfileCreate := by rw [hI]
    have hcc := identify_create_cases c w.profiles hne hflow2
    rw [hI] at hcc
    have hcase : (c.InvokedFromProfileCreate = true ∧ nm = c.ProfileCreateName) ∨
        adjustedProfiles w.profiles = [] := by
      rcases hcc with ⟨h1c, h2c, _⟩ | ⟨h1c, _⟩
      · exact Or.inl ⟨h1c, h2c⟩
      · right
        rw [h1c]
        rfl
    rw [processProfiles_create_eq c ar now true w nm _ hI, if_pos rfl]
    refine ⟨?_, ?_⟩
    · exact countDefaults_processCreateProfile_le c ar nm _ now hnd2 h12 hcase
    · intro hPD _ q hq hqnm
      exact processCreateProfile_clears_others c ar nm
        (adjustedProfiles w.profiles) now hcase hPD q hq hqnm
  | ProfileUpdate =>
    cases hu : (processUpdateProfile c ar nm (adjustedProfiles w.profiles) now).2 with
    | some e =>
      exfalso
      rw [processProfiles_update_some c ar now true w nm _ e hI hu] at hok
      simp at hok
    | none =>
      rw [processProfiles_update_none c ar now true w nm _ hI hu, if_pos rfl]
      refine ⟨?_, ?_⟩
      · exact countDefaults_processUpdateProfile_le c ar nm _ now hnd2 h12 hupd
      · intro _ hflow
        simp at hflow

/-- Witness for C1's amended theorem at a concrete input. -/
theorem c1_amended_at_most_one_default_witness :
    ((worldAB.profiles.map Prod.fst).Nodup ∧
      (∀ k ∈ worldAB.profiles.map Prod.fst, k ≠ "") ∧
      countDefaults worldAB.profiles ≤ 1 ∧
      ¬(cmdBlank.InvokedFromProfileUpdate = true ∧
        cmdBlank.ProfileDefault = true) ∧
      (processProfiles cmdBlank arGood 0 true worldAB).2 = none) ∧
    countDefaults (processProfiles cmdBlank arGood 0 true worldAB).1.profiles ≤
      1 :=
  ⟨⟨by decide, by decide, by decide, by decide, by decide⟩,
   (c1_amended_at_most_one_default cmdBlank arGood 0 true worldAB (by decide)
     (by decide) (by decide) (by decide) (by decide)).1⟩

end FastlyCLI
